import Mathlib

/-!
Verification of the Download Job Queue subsystem of `queue_manager_refactored.py`
(`bottelegramvideo`), shallowly embedded in Lean 4.

Machine integers are modelled as `Int`/`Nat`, Python floats (only `progress` and the
statistics rates) as `ℚ`, timestamps and ids as opaque `String`s chosen
nondeterministically by the caller, and the JSON store as the list of per-item
records that `to_dict` produces.  Fallible paths return `Option`; the
catch-all `try/except` blocks of the source are reflected by total functions.
-/

namespace BotQueue

/-- `QueueStatus` enum of the source (values are the Python member strings). -/
inductive QueueStatus where
  | PENDING
  | DOWNLOADING
  | PROCESSING
  | COMPLETED
  | FAILED
  | CANCELLED
  | PAUSED
deriving DecidableEq

/-- The string value of each `QueueStatus` member. -/
def QueueStatus.value : QueueStatus → String
  | .PENDING => "pending"
  | .DOWNLOADING => "downloading"
  | .PROCESSING => "processing"
  | .COMPLETED => "completed"
  | .FAILED => "failed"
  | .CANCELLED => "cancelled"
  | .PAUSED => "paused"

/-- `QueueStatus(s)`: enum lookup by value; `none` models the `ValueError`. -/
def QueueStatus.ofValue : String → Option QueueStatus
  | "pending" => some .PENDING
  | "downloading" => some .DOWNLOADING
  | "processing" => some .PROCESSING
  | "completed" => some .COMPLETED
  | "failed" => some .FAILED
  | "cancelled" => some .CANCELLED
  | "paused" => some .PAUSED
  | _ => none

/-- `Priority` enum of the source. -/
inductive Priority where
  | LOW
  | NORMAL
  | HIGH
  | URGENT
deriving DecidableEq

/-- The string value of each `Priority` member. -/
def Priority.value : Priority → String
  | .LOW => "low"
  | .NORMAL => "normal"
  | .HIGH => "high"
  | .URGENT => "urgent"

/-- `Priority(s)`: enum lookup by value. -/
def Priority.ofValue : String → Option Priority
  | "low" => some .LOW
  | "normal" => some .NORMAL
  | "high" => some .HIGH
  | "urgent" => some .URGENT
  | _ => none

/-- The `priority_order` dict inside `Priority.__lt__`:
`LOW ↦ 0, NORMAL ↦ 1, HIGH ↦ 2, URGENT ↦ 3`. -/
def priority_order : Priority → Nat
  | .LOW => 0
  | .NORMAL => 1
  | .HIGH => 2
  | .URGENT => 3

/-- `Priority.__lt__`: comparison through `priority_order`. -/
def Priority.py_lt (a b : Priority) : Bool :=
  priority_order a < priority_order b

/-- `DownloadType` enum of the source (the second member is `AUDIO` in the
Python source; capitalization differs here only for lexical reasons). -/
inductive DownloadType where
  | VIDEO
  | Audio
  | IMAGES
  | STORY
  | PLAYLIST
  | GENERIC_QUALITY
  | VIDEO_CUT
deriving DecidableEq

/-- The string value of each `DownloadType` member. -/
def DownloadType.value : DownloadType → String
  | .VIDEO => "video"
  | .Audio => "audio"
  | .IMAGES => "images"
  | .STORY => "story"
  | .PLAYLIST => "playlist"
  | .GENERIC_QUALITY => "generic_quality"
  | .VIDEO_CUT => "video_cut"

/-- `DownloadType(s)`: enum lookup by value. -/
def DownloadType.ofValue : String → Option DownloadType
  | "video" => some .VIDEO
  | "audio" => some .Audio
  | "images" => some .IMAGES
  | "story" => some .STORY
  | "playlist" => some .PLAYLIST
  | "generic_quality" => some .GENERIC_QUALITY
  | "video_cut" => some .VIDEO_CUT
  | _ => none

/-- The `QueueItemData` dataclass.  `metadata` (an opaque JSON payload the queue
never interprets) is modelled as a string-to-string association list; after
`__post_init__` it is never `None`, so the field is not optional here. -/
structure QueueItemData where
  id : String
  chat_id : Int
  url : String
  download_type : DownloadType
  user_name : String
  priority : Priority
  status : QueueStatus
  created_time : String
  started_time : Option String := none
  completed_time : Option String := none
  error_message : Option String := none
  format_id : Option String := none
  video_index : Option Int := none
  progress : ℚ := 0
  file_size : Option Int := none
  retry_count : Nat := 0
  max_retries : Nat := 3
  metadata : List (String × String) := []
deriving DecidableEq

/-- `QueueItemData.can_retry`. -/
def QueueItemData.can_retry (i : QueueItemData) : Bool :=
  decide (i.retry_count < i.max_retries) && decide (i.status = QueueStatus.FAILED)

/-- The dictionary produced by `QueueItemData.to_dict` (enums as their string
values); `metadata` may be `null` in stored data, hence optional here. -/
structure ItemRepr where
  id : String
  chat_id : Int
  url : String
  download_type : String
  user_name : String
  priority : String
  status : String
  created_time : String
  started_time : Option String
  completed_time : Option String
  error_message : Option String
  format_id : Option String
  video_index : Option Int
  progress : ℚ
  file_size : Option Int
  retry_count : Nat
  max_retries : Nat
  metadata : Option (List (String × String))
deriving DecidableEq

/-- `QueueItemData.to_dict`: `asdict` plus enum-to-string conversion. -/
def QueueItemData.to_dict (i : QueueItemData) : ItemRepr where
  id := i.id
  chat_id := i.chat_id
  url := i.url
  download_type := i.download_type.value
  user_name := i.user_name
  priority := i.priority.value
  status := i.status.value
  created_time := i.created_time
  started_time := i.started_time
  completed_time := i.completed_time
  error_message := i.error_message
  format_id := i.format_id
  video_index := i.video_index
  progress := i.progress
  file_size := i.file_size
  retry_count := i.retry_count
  max_retries := i.max_retries
  metadata := some i.metadata

/-- `QueueItemData.from_dict` followed by `__post_init__`: string fields are
converted back to enums (`none` models the `ValueError` on an unknown tag) and a
`null` metadata becomes the empty dict. -/
def QueueItemData.from_dict (d : ItemRepr) : Option QueueItemData := do
  let dt ← DownloadType.ofValue d.download_type
  let p ← Priority.ofValue d.priority
  let st ← QueueStatus.ofValue d.status
  pure
    { id := d.id
      chat_id := d.chat_id
      url := d.url
      download_type := dt
      user_name := d.user_name
      priority := p
      status := st
      created_time := d.created_time
      started_time := d.started_time
      completed_time := d.completed_time
      error_message := d.error_message
      format_id := d.format_id
      video_index := d.video_index
      progress := d.progress
      file_size := d.file_size
      retry_count := d.retry_count
      max_retries := d.max_retries
      metadata := d.metadata.getD [] }

/-- The fields of `QueueConfig` that govern in-memory behaviour (file paths and
timer intervals belong to the I/O layer). -/
structure QueueConfig where
  max_queue_size : Nat := 1000
  max_completed_items : Nat := 100
deriving DecidableEq

/-- The default `QueueConfig()`. -/
def defaultConfig : QueueConfig := {}

/-- A stored file: absent, unreadable/corrupt at the JSON level, or a decoded
array of item records. -/
inductive StoreState where
  | absent
  | unreadable
  | stored (items : List ItemRepr)
deriving DecidableEq

/-- The list comprehension `[QueueItemData.from_dict(item) for item in queue_data]`:
fails (raising, caught by the enclosing `except`) iff any record fails. -/
def decodeItems : List ItemRepr → Option (List QueueItemData)
  | [] => some []
  | d :: rest =>
    match QueueItemData.from_dict d with
    | some i => (decodeItems rest).map (fun l => i :: l)
    | none => none

/-- Body of the reset loop in `_load_queue`: an item persisted as
`DOWNLOADING` becomes `PENDING` with `started_time` cleared. -/
def resetItem (i : QueueItemData) : QueueItemData :=
  if i.status = QueueStatus.DOWNLOADING then
    { i with status := QueueStatus.PENDING, started_time := none }
  else i

/-- The reset loop of `_load_queue` over the whole collection. -/
def resetDownloading (q : List QueueItemData) : List QueueItemData :=
  q.map resetItem

/-- `QueueManager._load_backup`: reads the backup file; on absence, read error
or decode error the queue is left/made empty.  Note: no downloading-reset here. -/
def load_backup (backup : StoreState) : List QueueItemData :=
  match backup with
  | .stored l =>
    match decodeItems l with
    | some items => items
    | none => []
  | _ => []

/-- `QueueManager._load_queue`: absent primary file gives the empty queue;
a read/decode failure falls back to `_load_backup`; decoded items have
`DOWNLOADING` reset to `PENDING`. -/
def load_queue (primary backup : StoreState) : List QueueItemData :=
  match primary with
  | .absent => []
  | .unreadable => load_backup backup
  | .stored l =>
    match decodeItems l with
    | some items => resetDownloading items
    | none => load_backup backup

/-- The array `_save_queue` writes to the primary file (computed from the full
queue before any trimming). -/
def saveData (q : List QueueItemData) : List ItemRepr :=
  q.map QueueItemData.to_dict

/-- Membership of a status in `[COMPLETED, FAILED]`, the trim filter of
`_save_queue`. -/
def isTrimmable (i : QueueItemData) : Bool :=
  decide (i.status = QueueStatus.COMPLETED) || decide (i.status = QueueStatus.FAILED)

/-- The sort key `x.completed_time or x.created_time` (Python `or`: an unset or
empty completion time falls back to the creation time). -/
def completedKey (i : QueueItemData) : String :=
  match i.completed_time with
  | some s => if s = "" then i.created_time else s
  | none => i.created_time

/-- Lexicographic comparison of character lists by code point — the order
Python uses on `str`. -/
def charListLt : List Char → List Char → Bool
  | [], [] => false
  | [], _ :: _ => true
  | _ :: _, [] => false
  | a :: as, b :: bs => if a < b then true else if b < a then false else charListLt as bs

/-- Python's `<` on strings: code-point lexicographic. -/
def pyStrLt (a b : String) : Bool := charListLt a.data b.data

/-- Python's `<=` on strings. -/
def pyStrLe (a b : String) : Bool := !(pyStrLt b a)

/-- The `self._queue.remove(item)` loop: erase each listed item (first
structurally equal occurrence) from the queue. -/
def removeEach (q : List QueueItemData) (rem : List QueueItemData) : List QueueItemData :=
  rem.foldl (fun acc it => acc.erase it) q

/-- The in-memory trimming `_save_queue` performs after writing: when the queue
exceeds `max_completed_items`, the oldest terminal items (sorted by
`completed_time or created_time`) beyond that ceiling are removed.  Python's
slice `l[:-n]` is empty for `n = 0`, hence the explicit zero case. -/
def saveTrimQueue (cfg : QueueConfig) (q : List QueueItemData) : List QueueItemData :=
  if q.length > cfg.max_completed_items then
    let completed_items := q.filter isTrimmable
    if completed_items.length > cfg.max_completed_items then
      let sorted := completed_items.mergeSort (fun a b => pyStrLe (completedKey a) (completedKey b))
      let items_to_remove :=
        if cfg.max_completed_items = 0 then []
        else sorted.take (sorted.length - cfg.max_completed_items)
      removeEach q items_to_remove
    else q
  else q

/-- The insertion test of `_insert_by_priority`: the scan stops at (and
inserts immediately before) the first existing item `x` that is PENDING with a
priority string lexicographically smaller than the new item's. -/
def insertBlocked (item x : QueueItemData) : Bool :=
  decide (x.status = QueueStatus.PENDING) && pyStrLt x.priority.value item.priority.value

/-- `QueueManager._insert_by_priority`: linear scan for the first PENDING item
whose priority **string value** is lexicographically smaller than the new
item's (`item.priority.value > existing_item.priority.value` in the source),
inserting there, else appending. -/
def insert_by_priority (item : QueueItemData) : List QueueItemData → List QueueItemData
  | [] => [item]
  | x :: xs =>
    if x.status = QueueStatus.PENDING ∧ pyStrLt x.priority.value item.priority.value then
      item :: x :: xs
    else
      x :: insert_by_priority item xs

/-- Manager state: the queue plus the `_current_download` marker.  The marker
aliases a queue item in Python; only its `id` and (immutable) `chat_id` are
ever read, so the pair of those is stored. -/
structure ManagerState where
  queue : List QueueItemData
  current_download : Option (String × Int)
deriving DecidableEq

/-- A manager constructed with persistence off (or an absent store): empty
queue, no active download. -/
def initState : ManagerState :=
  { queue := [], current_download := none }

/-- `QueueManager.add_item`: rejects (raises, modelled as `none`) at capacity;
otherwise builds the item with `status = PENDING` (id/created_time are the
caller-chosen strings in `base`), inserts by priority, persists.  Returns the
new state and the created item. -/
def add_item (cfg : QueueConfig) (base : QueueItemData) (s : ManagerState) :
    ManagerState × Option QueueItemData :=
  if s.queue.length ≥ cfg.max_queue_size then (s, none)
  else
    let item := { base with status := QueueStatus.PENDING }
    ({ s with queue := saveTrimQueue cfg (insert_by_priority item s.queue) }, some item)

/-- The scan of `get_next_item`: first PENDING item becomes DOWNLOADING with
`started_time` stamped; returns the updated queue and the selected item. -/
def markFirstPending (now : String) : List QueueItemData → List QueueItemData × Option QueueItemData
  | [] => ([], none)
  | x :: xs =>
    if x.status = QueueStatus.PENDING then
      let x' := { x with status := QueueStatus.DOWNLOADING, started_time := some now }
      (x' :: xs, some x')
    else
      let r := markFirstPending now xs
      (x :: r.1, r.2)

/-- `QueueManager.get_next_item`. -/
def get_next_item (cfg : QueueConfig) (now : String) (s : ManagerState) :
    ManagerState × Option QueueItemData :=
  let r := markFirstPending now s.queue
  match r.2 with
  | some it =>
    ({ queue := saveTrimQueue cfg r.1, current_download := some (it.id, it.chat_id) }, some it)
  | none => (s, none)

/-- Membership of a status in `[COMPLETED, FAILED, CANCELLED]`. -/
def isTerminalStatus (st : QueueStatus) : Bool :=
  decide (st = QueueStatus.COMPLETED) || decide (st = QueueStatus.FAILED) ||
    decide (st = QueueStatus.CANCELLED)

/-- The per-item mutation of `update_item_status`: set the status, set
`error_message` when the argument is truthy (not `None`, not empty), clamp and
set progress when given, and stamp `completed_time` on a terminal status. -/
def applyStatusUpdate (st : QueueStatus) (error_message : Option String)
    (progress : Option ℚ) (now : String) (i : QueueItemData) : QueueItemData :=
  let i1 := { i with status := st }
  let i2 :=
    match error_message with
    | some e => if e = "" then i1 else { i1 with error_message := some e }
    | none => i1
  let i3 :=
    match progress with
    | some p => { i2 with progress := max 0 (min 100 p) }
    | none => i2
  if isTerminalStatus st then { i3 with completed_time := some now } else i3

/-- `_find_item` + in-place mutation: rewrite the first item with the given id
by `f`; `none` when no item matches. -/
def updateFirstById (item_id : String) (f : QueueItemData → QueueItemData) :
    List QueueItemData → Option (List QueueItemData × QueueItemData)
  | [] => none
  | x :: xs =>
    if x.id = item_id then some (f x :: xs, f x)
    else
      match updateFirstById item_id f xs with
      | some r => some (x :: r.1, r.2)
      | none => none

/-- `QueueManager.update_item_status`. -/
def update_item_status (cfg : QueueConfig) (item_id : String) (st : QueueStatus)
    (error_message : Option String) (progress : Option ℚ) (now : String)
    (s : ManagerState) : ManagerState × Bool :=
  match updateFirstById item_id (applyStatusUpdate st error_message progress now) s.queue with
  | none => (s, false)
  | some r =>
    let cur :=
      if isTerminalStatus st then
        match s.current_download with
        | some c => if c.1 = item_id then none else some c
        | none => none
      else s.current_download
    ({ queue := saveTrimQueue cfg r.1, current_download := cur }, true)

/-- `_find_item` + `self._queue.remove(item)`: detach the first item with the
given id. -/
def removeFirstById (item_id : String) :
    List QueueItemData → Option (QueueItemData × List QueueItemData)
  | [] => none
  | x :: xs =>
    if x.id = item_id then some (x, xs)
    else
      match removeFirstById item_id xs with
      | some r => some (r.1, x :: r.2)
      | none => none

/-- The field resets `retry_item` applies on success. -/
def retryReset (i : QueueItemData) : QueueItemData :=
  { i with
    status := QueueStatus.PENDING
    retry_count := i.retry_count + 1
    error_message := none
    progress := 0
    started_time := none
    completed_time := none }

/-- `QueueManager.retry_item`: false unless the item exists and `can_retry`;
on success resets the fields, removes the item and reinserts it by priority. -/
def retry_item (cfg : QueueConfig) (item_id : String) (s : ManagerState) :
    ManagerState × Bool :=
  match removeFirstById item_id s.queue with
  | none => (s, false)
  | some r =>
    if r.1.can_retry then
      ({ s with queue := saveTrimQueue cfg (insert_by_priority (retryReset r.1) r.2) }, true)
    else (s, false)

/-- `QueueManager.remove_item`. -/
def remove_item (cfg : QueueConfig) (item_id : String) (s : ManagerState) :
    ManagerState × Bool :=
  match removeFirstById item_id s.queue with
  | none => (s, false)
  | some r =>
    let cur :=
      match s.current_download with
      | some c => if c.1 = item_id then none else some c
      | none => none
    ({ queue := saveTrimQueue cfg r.2, current_download := cur }, true)

/-- `QueueManager.clear_user_queue`. -/
def clear_user_queue (cfg : QueueConfig) (chat_id : Int) (s : ManagerState) :
    ManagerState × Nat :=
  let user_items := s.queue.filter (fun i => i.chat_id = chat_id)
  let q := s.queue.filter (fun i => i.chat_id ≠ chat_id)
  let cur :=
    match s.current_download with
    | some c => if c.2 = chat_id then none else some c
    | none => none
  ({ queue := saveTrimQueue cfg q, current_download := cur }, user_items.length)

/-- The `else` branch of `clear_completed_items` (`chat_id` falsy): removes
every COMPLETED item of every requester. -/
def clearCompletedAll (cfg : QueueConfig) (s : ManagerState) : ManagerState × Nat :=
  let completed_items := s.queue.filter (fun i => i.status = QueueStatus.COMPLETED)
  let kept := s.queue.filter (fun i => ¬ i.status = QueueStatus.COMPLETED)
  ({ s with queue := saveTrimQueue cfg kept }, completed_items.length)

/-- `QueueManager.clear_completed_items`: the source guard is `if chat_id:`,
a **truthiness** test, so `None` and `0` both select the global branch. -/
def clear_completed_items (cfg : QueueConfig) (chat_id : Option Int) (s : ManagerState) :
    ManagerState × Nat :=
  match chat_id with
  | some c =>
    if c = 0 then clearCompletedAll cfg s
    else
      let completed_items :=
        s.queue.filter (fun i => i.chat_id = c ∧ i.status = QueueStatus.COMPLETED)
      let kept := s.queue.filter (fun i => ¬ (i.chat_id = c ∧ i.status = QueueStatus.COMPLETED))
      ({ s with queue := saveTrimQueue cfg kept }, completed_items.length)
  | none => clearCompletedAll cfg s

/-- `QueueManager.cleanup_old_items`.  The datetime comparison
`fromisoformat(created_time) < cutoff` is abstracted as the predicate `isOld`
on the stored timestamp string. -/
def cleanup_old_items (cfg : QueueConfig) (isOld : String → Bool) (s : ManagerState) :
    ManagerState × Nat :=
  let old_items := s.queue.filter (fun i =>
    (i.status = QueueStatus.COMPLETED ∨ i.status = QueueStatus.FAILED) ∧ isOld i.created_time)
  let q := removeEach s.queue old_items
  ({ s with queue := if old_items.length > 0 then saveTrimQueue cfg q else q },
    old_items.length)

/-- Number of items of a given status (`by_status` in `_calculate_stats`). -/
def countStatus (items : List QueueItemData) (st : QueueStatus) : Nat :=
  (items.filter (fun i => i.status = st)).length

/-- The `success_rate` computed by `QueueStatistics._calculate_stats`
(float arithmetic modelled over `ℚ`). -/
def success_rate (items : List QueueItemData) : ℚ :=
  let completed := countStatus items QueueStatus.COMPLETED
  let failed := countStatus items QueueStatus.FAILED
  let total_processed := completed + failed
  if total_processed > 0 then (completed : ℚ) / (total_processed : ℚ) * 100 else 0

/-- The `success_rate` entry of `QueueStatistics.get_user_stats`: the items are
filtered to one requester; an empty filter short-circuits to the zero dict. -/
def user_success_rate (items : List QueueItemData) (chat_id : Int) : ℚ :=
  let user_items := items.filter (fun i => i.chat_id = chat_id)
  if user_items.isEmpty then 0 else success_rate user_items

/-- Which branch `QueueManager.get_statistics` takes (the full
`QueueStatistics` object versus the `get_user_stats` dict); both are pure
functions of the carried collection. -/
inductive StatisticsResult where
  | globalStats (items : List QueueItemData)
  | userStats (chat_id : Int) (items : List QueueItemData)
deriving DecidableEq

/-- `QueueManager.get_statistics`: the source guard is `if chat_id:`, a
truthiness test, so `None` and `0` both yield the global statistics object. -/
def get_statistics (q : List QueueItemData) (chat_id : Option Int) : StatisticsResult :=
  match chat_id with
  | some c => if c = 0 then .globalStats q else .userStats c q
  | none => .globalStats q

/-- A registered listener hook: the awaited call either returns or raises
(message carried in the error). -/
def Listener : Type := QueueItemData → Except String Unit

/-- `QueueManager._notify_listeners`: each listener is called in registration
order; a raising listener is logged (`self.logger.error`) and the loop
continues.  The returned list is the error log. -/
def notify_listeners (listeners : List Listener) (item : QueueItemData) : List String :=
  match listeners with
  | [] => []
  | l :: rest =>
    match l item with
    | Except.ok _ => notify_listeners rest item
    | Except.error e => ("Erro ao notificar listener: " ++ e) :: notify_listeners rest item

/-- `add_item` together with its `_notify_listeners('on_item_added', item)`
call (the notification fires only when no capacity error was raised). -/
def add_item_with_listeners (cfg : QueueConfig) (listeners : List Listener)
    (base : QueueItemData) (s : ManagerState) :
    ManagerState × Option QueueItemData × List String :=
  let r := add_item cfg base s
  match r.2 with
  | some item => (r.1, some item, notify_listeners listeners item)
  | none => (r.1, none, [])

/-- One Queue Manager operation, with every timestamp/id/payload the source
draws from the environment (uuid, `datetime.now()`, caller arguments) as an
explicit parameter. -/
inductive QueueOp where
  | add (base : QueueItemData)
  | getNext (now : String)
  | update (item_id : String) (st : QueueStatus) (error_message : Option String)
      (progress : Option ℚ) (now : String)
  | retry (item_id : String)
  | remove (item_id : String)
  | clearUser (chat_id : Int)
  | clearCompleted (chat_id : Option Int)
  | cleanup (isOld : String → Bool)

/-- State transition of one operation (return values discarded). -/
def applyOp (cfg : QueueConfig) (op : QueueOp) (s : ManagerState) : ManagerState :=
  match op with
  | .add base => (add_item cfg base s).1
  | .getNext now => (get_next_item cfg now s).1
  | .update item_id st err prog now => (update_item_status cfg item_id st err prog now s).1
  | .retry item_id => (retry_item cfg item_id s).1
  | .remove item_id => (remove_item cfg item_id s).1
  | .clearUser chat_id => (clear_user_queue cfg chat_id s).1
  | .clearCompleted chat_id => (clear_completed_items cfg chat_id s).1
  | .cleanup isOld => (cleanup_old_items cfg isOld s).1

/-- Run a sequence of operations from a state. -/
def runOps (cfg : QueueConfig) (ops : List QueueOp) (s : ManagerState) : ManagerState :=
  ops.foldl (fun s op => applyOp cfg op s) s

/-- States reachable from a fresh manager by arbitrary operation sequences. -/
inductive Reach (cfg : QueueConfig) : ManagerState → Prop where
  | init : Reach cfg initState
  | step (op : QueueOp) {s : ManagerState} : Reach cfg s → Reach cfg (applyOp cfg op s)

/-- Number of items currently in status DOWNLOADING. -/
def downloadingCount (q : List QueueItemData) : Nat :=
  (q.filter (fun i => i.status = QueueStatus.DOWNLOADING)).length

/-- States reachable when the manager is driven the way the worker loop drives
it: `get_next_item` only when no item is downloading, and `update_item_status`
never with the DOWNLOADING status itself. -/
inductive GuardedReach (cfg : QueueConfig) : ManagerState → Prop where
  | init : GuardedReach cfg initState
  | add (base : QueueItemData) {s : ManagerState} : GuardedReach cfg s →
      GuardedReach cfg (applyOp cfg (.add base) s)
  | getNext (now : String) {s : ManagerState} : GuardedReach cfg s →
      downloadingCount s.queue = 0 → GuardedReach cfg (applyOp cfg (.getNext now) s)
  | update (item_id : String) (st : QueueStatus) (err : Option String) (prog : Option ℚ)
      (now : String) {s : ManagerState} : GuardedReach cfg s →
      st ≠ QueueStatus.DOWNLOADING →
      GuardedReach cfg (applyOp cfg (.update item_id st err prog now) s)
  | retry (item_id : String) {s : ManagerState} : GuardedReach cfg s →
      GuardedReach cfg (applyOp cfg (.retry item_id) s)
  | remove (item_id : String) {s : ManagerState} : GuardedReach cfg s →
      GuardedReach cfg (applyOp cfg (.remove item_id) s)
  | clearUser (chat_id : Int) {s : ManagerState} : GuardedReach cfg s →
      GuardedReach cfg (applyOp cfg (.clearUser chat_id) s)
  | clearCompleted (chat_id : Option Int) {s : ManagerState} : GuardedReach cfg s →
      GuardedReach cfg (applyOp cfg (.clearCompleted chat_id) s)
  | cleanup (isOld : String → Bool) {s : ManagerState} : GuardedReach cfg s →
      GuardedReach cfg (applyOp cfg (.cleanup isOld) s)

/-- A fresh PENDING item with the given id, requester, priority and creation
time, all other fields at their dataclass defaults. -/
def sampleItem (id : String) (chat_id : Int) (priority : Priority) (created : String) :
    QueueItemData :=
  { id := id
    chat_id := chat_id
    url := "http://example.com/v"
    download_type := DownloadType.VIDEO
    user_name := "User"
    priority := priority
    status := QueueStatus.PENDING
    created_time := created }

/-- The ids of the PENDING items in scheduling (collection) order. -/
def pendingIds (q : List QueueItemData) : List String :=
  (q.filter (fun i => i.status = QueueStatus.PENDING)).map (fun i => i.id)

/-- Modelled from the spec: `success rate = completed / (completed + failed),
defined as 0 when no terminal items exist yet`, read as a percentage
(the amended form carries the factor 100 the code applies). -/
def spec_success_rate (completed failed : Nat) : ℚ :=
  if completed + failed = 0 then 0 else 100 * (completed : ℚ) / ((completed : ℚ) + (failed : ℚ))

/-- True iff some PENDING item of the same priority occurs **after** the first
item carrying the given id — i.e. that item is *not* at the tail of its
priority class among pending items. -/
def existsLaterSamePrioPending : List QueueItemData → String → Bool
  | [], _ => false
  | x :: xs, item_id =>
    if x.id = item_id then
      xs.any (fun j => decide (j.status = QueueStatus.PENDING) && decide (j.priority = x.priority))
    else existsLaterSamePrioPending xs item_id

/-- A terminal COMPLETED item (concrete test datum). -/
def completedItem : QueueItemData :=
  { sampleItem "X" 1 Priority.NORMAL "2024-01-01T00:00:00" with
    status := QueueStatus.COMPLETED, completed_time := some "2024-01-01T01:00:00" }

/-- A terminal FAILED item (concrete test datum). -/
def failedItem : QueueItemData :=
  { sampleItem "Y" 1 Priority.NORMAL "2024-01-01T00:00:00" with
    status := QueueStatus.FAILED, completed_time := some "2024-01-01T01:00:00" }

/-- An item persisted while DOWNLOADING — the crash artifact of §4.2 of the
spec (concrete test datum). -/
def crashedItem : QueueItemData :=
  { sampleItem "D" 7 Priority.NORMAL "2024-01-01T00:00:00" with
    status := QueueStatus.DOWNLOADING, started_time := some "2024-01-01T00:30:00" }

/-- A stored record with an unknown status tag: `QueueStatus(value)` raises on
it, so decoding the containing array fails (concrete test datum). -/
def badRepr : ItemRepr :=
  { crashedItem.to_dict with status := "bogus" }

/-- An operation sequence reaching a state whose items are
F(normal, failed), H(high, pending), N(normal, pending) in that collection
order: F fails, H is added while F blocks the head, N is added while H is
downloading, then H is moved back to pending. -/
def retryScenarioOps : List QueueOp :=
  [QueueOp.add (sampleItem "F" 1 Priority.NORMAL "t0"),
   QueueOp.getNext "t1",
   QueueOp.update "F" QueueStatus.FAILED none none "t2",
   QueueOp.add (sampleItem "H" 1 Priority.HIGH "t0"),
   QueueOp.getNext "t3",
   QueueOp.add (sampleItem "N" 1 Priority.NORMAL "t0"),
   QueueOp.update "H" QueueStatus.PENDING none none "t4"]

/-! ## Theorems -/

/-- **C1** — The claim says scheduling order after adding A(normal), B(high),
C(normal) is B, A, C (priority descending, urgent > high > normal > low).  The
code gives A, C, B: `_insert_by_priority` compares `Priority.value` *strings*
lexicographically, under which "normal" outranks "high", contradicting the
order the source's own `Priority.__lt__` defines.  This theorem evaluates the
scenario and exhibits the comparator disagreement. -/
theorem C1_priority_order_scenario :
    pendingIds (runOps defaultConfig
      [QueueOp.add (sampleItem "A" 1 Priority.NORMAL "t0"),
       QueueOp.add (sampleItem "B" 1 Priority.HIGH "t0"),
       QueueOp.add (sampleItem "C" 1 Priority.NORMAL "t0")] initState).queue = ["A", "C", "B"]
    ∧ Priority.py_lt Priority.NORMAL Priority.HIGH = true
    ∧ pyStrLt (Priority.value Priority.NORMAL) (Priority.value Priority.HIGH) = false := by
  decide

/-- **C3** — The claim says items persisted as `downloading` are observed as
`pending` with `started_at` unset after load from either the primary store or
the backup.  `_load_queue` does reset them, but `_load_backup` does not: a
downloading item loaded from the backup stays `downloading` with its stale
`started_time`. -/
theorem C3_backup_load_keeps_downloading :
    (load_backup (StoreState.stored [crashedItem.to_dict])).map
        (fun i => (i.status, i.started_time))
      = [(QueueStatus.DOWNLOADING, some "2024-01-01T00:30:00")]
    ∧ (load_queue StoreState.unreadable (StoreState.stored [crashedItem.to_dict])).map
        (fun i => (i.status, i.started_time))
      = [(QueueStatus.DOWNLOADING, some "2024-01-01T00:30:00")]
    ∧ (load_queue (StoreState.stored [crashedItem.to_dict]) StoreState.absent).map
        (fun i => (i.status, i.started_time))
      = [(QueueStatus.PENDING, none)] := by
  decide

/-- **C5 (counterexample)** — The claim says an *absent* primary store falls
back to the backup copy.  It does not: `_load_queue` starts empty without
consulting a readable, non-empty backup. -/
theorem C5_absent_primary_ignores_backup :
    load_queue StoreState.absent (StoreState.stored [completedItem.to_dict]) = []
    ∧ load_backup (StoreState.stored [completedItem.to_dict]) = [completedItem] := by
  decide

/-- **C5 (amended)** — If the primary store is *unreadable or corrupt* (read
error or decode error), the manager falls back to the backup; if the primary is
*absent* it starts empty without consulting the backup; an unavailable or
unreadable backup yields the empty collection; loading is a total function
(the catch-all handlers mean no error reaches the caller). -/
theorem C5_load_fallback (b : StoreState) (l : List ItemRepr) :
    load_queue StoreState.absent b = []
    ∧ load_queue StoreState.unreadable b = load_backup b
    ∧ (decodeItems l = none → load_queue (StoreState.stored l) b = load_backup b)
    ∧ load_backup StoreState.absent = []
    ∧ load_backup StoreState.unreadable = []
    ∧ (decodeItems l = none → load_backup (StoreState.stored l) = []) := by
  refine ⟨rfl, rfl, ?_, rfl, rfl, ?_⟩ <;> intro h <;> simp [load_queue, load_backup, h]

/-- Witness for `C5_load_fallback` at a concrete corrupt store. -/
theorem C5_load_fallback_witness :
    load_queue (StoreState.stored [badRepr]) (StoreState.stored [completedItem.to_dict])
      = load_backup (StoreState.stored [completedItem.to_dict])
    ∧ load_backup (StoreState.stored [badRepr]) = [] := by
  have h := C5_load_fallback (StoreState.stored [completedItem.to_dict]) [badRepr]
  exact ⟨h.2.2.1 (by decide), h.2.2.2.2.2 (by decide)⟩

/-- **C6 (counterexample)** — The claim gives the success rate as
`completed / (completed + failed)`.  On one completed and one failed item that
formula yields 1/2, but `_calculate_stats` multiplies by 100 and reports 50:
the code computes a percentage, not the claimed ratio. -/
theorem C6_success_rate_is_percentage :
    countStatus [completedItem, failedItem] QueueStatus.COMPLETED = 1
    ∧ countStatus [completedItem, failedItem] QueueStatus.FAILED = 1
    ∧ success_rate [completedItem, failedItem] = 50
    ∧ success_rate [completedItem, failedItem] ≠ (1 : ℚ) / (1 + 1) := by
  have h1 : countStatus [completedItem, failedItem] QueueStatus.COMPLETED = 1 := by decide
  have h2 : countStatus [completedItem, failedItem] QueueStatus.FAILED = 1 := by decide
  have h3 : success_rate [completedItem, failedItem] = 50 := by
    simp [success_rate, h1, h2]
    norm_num
  exact ⟨h1, h2, h3, by rw [h3]; norm_num⟩

/-- **C6 (amended)** — The statistics engine computes the success rate as the
*percentage* `100 · completed / (completed + failed)`, equal to `0` when
`completed + failed = 0`; the per-requester rate is the same formula applied to
the collection filtered to that requester (the empty-filter shortcut of
`get_user_stats` returns 0, which the formula also gives). -/
theorem C6_success_rate_formula (items : List QueueItemData) :
    success_rate items
      = spec_success_rate (countStatus items QueueStatus.COMPLETED)
          (countStatus items QueueStatus.FAILED)
    ∧ ∀ chat_id : Int,
        user_success_rate items chat_id
          = spec_success_rate
              (countStatus (items.filter (fun i => i.chat_id = chat_id)) QueueStatus.COMPLETED)
              (countStatus (items.filter (fun i => i.chat_id = chat_id)) QueueStatus.FAILED) := by
  have key : ∀ l : List QueueItemData,
      success_rate l
        = spec_success_rate (countStatus l QueueStatus.COMPLETED)
            (countStatus l QueueStatus.FAILED) := by
    intro l
    unfold success_rate spec_success_rate
    rcases Nat.eq_zero_or_pos (countStatus l QueueStatus.COMPLETED +
        countStatus l QueueStatus.FAILED) with h | h
    · simp [h]
    · rw [if_pos h, if_neg (Nat.pos_iff_ne_zero.mp h)]
      push_cast
      ring
  refine ⟨key items, fun chat_id => ?_⟩
  unfold user_success_rate
  rcases hEmpty : items.filter (fun i => i.chat_id = chat_id) with _ | ⟨x, xs⟩
  · simp [hEmpty, spec_success_rate, countStatus]
  · rw [hEmpty]
    simpa using key (x :: xs)

/-- **C9** — Every lifecycle notification is delivered to every registered
listener in registration order, and a listener that raises neither prevents
delivery to the remaining listeners nor alters the result of the operation
that fired the event: `_notify_listeners` decomposes per listener (the loop
catches each exception, logs it, and continues), and `add_item`'s state and
return value are independent of the listener list. -/
theorem C9_listener_fault_isolation :
    (∀ (ls1 ls2 : List Listener) (l : Listener) (item : QueueItemData),
      notify_listeners (ls1 ++ l :: ls2) item
        = notify_listeners ls1 item ++ notify_listeners [l] item ++ notify_listeners ls2 item)
    ∧ ∀ (cfg : QueueConfig) (ls : List Listener) (base : QueueItemData) (s : ManagerState),
        (add_item_with_listeners cfg ls base s).1 = (add_item cfg base s).1
        ∧ (add_item_with_listeners cfg ls base s).2.1 = (add_item cfg base s).2 := by
  constructor
  · intro ls1 ls2 l item
    induction ls1 with
    | nil => cases h : l item <;> simp [notify_listeners, h]
    | cons hd tl ih => cases h : hd item <;> simp [notify_listeners, h, ih]
  · intro cfg ls base s
    unfold add_item_with_listeners
    cases h : (add_item cfg base s).2 <;> simp [h]

/-- **C10** — The requester-filtered operations test the requester id for
*truthiness*: with requester id 0 (falsy in Python), `clear_completed_items`
removes the completed items of every requester (same as passing no requester)
and `get_statistics` returns the global statistics; with any non-zero
requester id both operations are restricted to that requester. -/
theorem C10_requester_zero_truthiness (cfg : QueueConfig) (s : ManagerState) (c : Int) :
    clear_completed_items cfg (some 0) s = clear_completed_items cfg none s
    ∧ (clear_completed_items cfg (some 0) s).1.queue
        = saveTrimQueue cfg (s.queue.filter (fun i => ¬ i.status = QueueStatus.COMPLETED))
    ∧ get_statistics s.queue (some 0) = StatisticsResult.globalStats s.queue
    ∧ get_statistics s.queue none = StatisticsResult.globalStats s.queue
    ∧ (c ≠ 0 →
        (clear_completed_items cfg (some c) s).1.queue
          = saveTrimQueue cfg (s.queue.filter
              (fun i => ¬ (i.chat_id = c ∧ i.status = QueueStatus.COMPLETED)))
        ∧ get_statistics s.queue (some c) = StatisticsResult.userStats c s.queue) := by
  refine ⟨rfl, rfl, rfl, rfl, fun h => ⟨?_, ?_⟩⟩ <;>
    simp [clear_completed_items, get_statistics, h, clearCompletedAll]

/-- Witness for `C10_requester_zero_truthiness` at requester 5. -/
theorem C10_requester_zero_truthiness_witness :
    get_statistics [completedItem] (some 5) = StatisticsResult.userStats 5 [completedItem] := by
  exact ((C10_requester_zero_truthiness defaultConfig
    { queue := [completedItem], current_download := none } 5).2.2.2.2 (by decide)).2

/-- Enum round trip: looking a status value back up restores the member. -/
theorem statusOfValue_value (st : QueueStatus) : QueueStatus.ofValue st.value = some st := by
  cases st <;> rfl

/-- Enum round trip for `Priority`. -/
theorem priorityOfValue_value (p : Priority) : Priority.ofValue p.value = some p := by
  cases p <;> rfl

/-- Enum round trip for `DownloadType`. -/
theorem downloadTypeOfValue_value (t : DownloadType) : DownloadType.ofValue t.value = some t := by
  cases t <;> rfl

/-- Per-item round trip: `from_dict (to_dict i) = i`. -/
theorem from_dict_to_dict (i : QueueItemData) :
    QueueItemData.from_dict i.to_dict = some i := by
  cases i
  simp [QueueItemData.to_dict, QueueItemData.from_dict, statusOfValue_value,
    priorityOfValue_value, downloadTypeOfValue_value]

/-- Decoding the array `_save_queue` writes restores the exact item list. -/
theorem decode_saveData (q : List QueueItemData) : decodeItems (saveData q) = some q := by
  induction q with
  | nil => rfl
  | cons x xs ih =>
    simp only [saveData, List.map_cons, decodeItems, from_dict_to_dict]
    rw [show List.map QueueItemData.to_dict xs = saveData xs from rfl, ih]
    rfl

/-- **C8** — Serializing the full collection and reloading it yields a
collection field-for-field identical to the pre-save one, except that items
saved as DOWNLOADING come back as PENDING with `started_time` cleared (the
load normalization applied item-wise by `resetItem`). -/
theorem C8_save_load_roundtrip (q : List QueueItemData) (b : StoreState) :
    load_queue (StoreState.stored (saveData q)) b = q.map resetItem
    ∧ (∀ i : QueueItemData, i.status ≠ QueueStatus.DOWNLOADING → resetItem i = i)
    ∧ (∀ i : QueueItemData, i.status = QueueStatus.DOWNLOADING →
        resetItem i = { i with status := QueueStatus.PENDING, started_time := none }) := by
  refine ⟨?_, ?_, ?_⟩
  · simp [load_queue, decode_saveData, resetDownloading]
  · intro i h
    simp [resetItem, h]
  · intro i h
    simp [resetItem, h]

/-- Witness for `C8_save_load_roundtrip`: a non-downloading item is reloaded
unchanged and the crashed downloading item is normalized. -/
theorem C8_save_load_roundtrip_witness :
    resetItem completedItem = completedItem
    ∧ resetItem crashedItem
        = { crashedItem with status := QueueStatus.PENDING, started_time := none } := by
  exact ⟨(C8_save_load_roundtrip [] StoreState.absent).2.1 completedItem (by decide),
    (C8_save_load_roundtrip [] StoreState.absent).2.2 crashedItem (by decide)⟩

/-! ### Structural lemmas about the queue operations -/

/-- Erasing a list of items yields a sublist of the original queue. -/
theorem removeEach_sublist (rem q : List QueueItemData) : (removeEach q rem).Sublist q := by
  induction rem generalizing q with
  | nil => exact List.Sublist.refl q
  | cons r rest ih =>
    exact (ih (q.erase r)).trans (List.erase_sublist r q)

/-- The trimming `_save_queue` performs yields a sublist of the queue. -/
theorem saveTrim_sublist (cfg : QueueConfig) (q : List QueueItemData) :
    (saveTrimQueue cfg q).Sublist q := by
  unfold saveTrimQueue
  dsimp only
  repeat' split
  all_goals first
    | exact removeEach_sublist _ _
    | exact List.Sublist.refl q

/-- The downloading count of a sublist is no larger. -/
theorem downloadingCount_sublist {q1 q2 : List QueueItemData} (h : q1.Sublist q2) :
    downloadingCount q1 ≤ downloadingCount q2 :=
  (h.filter _).length_le

/-- Cons unfolding of `downloadingCount`. -/
theorem downloadingCount_cons (x : QueueItemData) (xs : List QueueItemData) :
    downloadingCount (x :: xs)
      = (if x.status = QueueStatus.DOWNLOADING then 1 else 0) + downloadingCount xs := by
  simp only [downloadingCount, List.filter_cons]
  split <;> simp_all
  omega

/-- Inserting a non-downloading item preserves the downloading count. -/
theorem downloadingCount_insert (item : QueueItemData)
    (h : ¬ item.status = QueueStatus.DOWNLOADING) (q : List QueueItemData) :
    downloadingCount (insert_by_priority item q) = downloadingCount q := by
  induction q with
  | nil => simp [insert_by_priority, downloadingCount_cons, h, downloadingCount]
  | cons x xs ih =>
    unfold insert_by_priority
    split
    · rw [downloadingCount_cons, downloadingCount_cons, if_neg h]
      omega
    · rw [downloadingCount_cons, downloadingCount_cons, ih]

/-- `get_next_item`'s scan raises the downloading count by at most one. -/
theorem downloadingCount_markFirstPending (now : String) (q : List QueueItemData) :
    downloadingCount (markFirstPending now q).1 ≤ downloadingCount q + 1 := by
  induction q with
  | nil => simp [markFirstPending, downloadingCount]
  | cons x xs ih =>
    unfold markFirstPending
    split
    · simp only
      rw [downloadingCount_cons, downloadingCount_cons]
      have hx : (if x.status = QueueStatus.DOWNLOADING then 1 else 0) + 1 ≥ 1 := by omega
      split <;> omega
    · simp only
      rw [downloadingCount_cons, downloadingCount_cons]
      omega

/-- If the rewriting function never produces a downloading item,
`updateFirstById` does not raise the downloading count. -/
theorem downloadingCount_updateFirstById (item_id : String)
    (f : QueueItemData → QueueItemData)
    (hf : ∀ x, ¬ (f x).status = QueueStatus.DOWNLOADING) :
    ∀ q r, updateFirstById item_id f q = some r → downloadingCount r.1 ≤ downloadingCount q := by
  intro q
  induction q with
  | nil => intro r h; cases h
  | cons x xs ih =>
    intro r h
    unfold updateFirstById at h
    split at h
    · cases h
      rw [downloadingCount_cons, downloadingCount_cons, if_neg (hf x)]
      omega
    · cases hrec : updateFirstById item_id f xs with
      | none => rw [hrec] at h; cases h
      | some r' =>
        rw [hrec] at h
        cases h
        rw [downloadingCount_cons, downloadingCount_cons]
        have := ih r' hrec
        omega

/-- The remainder `removeFirstById` leaves is a sublist of the queue. -/
theorem removeFirstById_sublist (item_id : String) :
    ∀ q r, removeFirstById item_id q = some r → r.2.Sublist q := by
  intro q
  induction q with
  | nil => intro r h; cases h
  | cons x xs ih =>
    intro r h
    unfold removeFirstById at h
    split at h
    · cases h
      exact (List.Sublist.refl xs).cons x
    · cases hrec : removeFirstById item_id xs with
      | none => rw [hrec] at h; cases h
      | some r' =>
        rw [hrec] at h
        cases h
        exact (ih r' hrec).cons₂ x

/-- The status `applyStatusUpdate` leaves on the item is exactly the new
status. -/
theorem applyStatusUpdate_status (st : QueueStatus) (err : Option String)
    (prog : Option ℚ) (now : String) (i : QueueItemData) :
    (applyStatusUpdate st err prog now i).status = st := by
  rcases err with _ | e <;> rcases prog with _ | p <;>
    simp only [applyStatusUpdate] <;> split_ifs <;> rfl

/-- On a terminal status, `applyStatusUpdate` stamps `completed_time`. -/
theorem applyStatusUpdate_completed_time (st : QueueStatus) (err : Option String)
    (prog : Option ℚ) (now : String) (i : QueueItemData)
    (h : isTerminalStatus st = true) :
    (applyStatusUpdate st err prog now i).completed_time = some now := by
  rcases err with _ | e <;> rcases prog with _ | p <;>
    simp only [applyStatusUpdate] <;> split_ifs <;> simp_all

/-- **C2 (counterexample)** — Two consecutive `get_next_item` calls (nothing
in the code checks for an already active item) put two items into
DOWNLOADING simultaneously: the single-active-job bound fails on unrestricted
operation sequences. -/
theorem C2_two_items_downloading :
    downloadingCount (runOps defaultConfig
      [QueueOp.add (sampleItem "A" 1 Priority.NORMAL "t0"),
       QueueOp.add (sampleItem "B" 1 Priority.NORMAL "t0"),
       QueueOp.getNext "t1", QueueOp.getNext "t2"] initState).queue = 2
    ∧ ¬ downloadingCount (runOps defaultConfig
      [QueueOp.add (sampleItem "A" 1 Priority.NORMAL "t0"),
       QueueOp.add (sampleItem "B" 1 Priority.NORMAL "t0"),
       QueueOp.getNext "t1", QueueOp.getNext "t2"] initState).queue ≤ 1 := by
  decide

/-- **C2 (amended)** — In every state reachable from a fresh manager by
sequences in which `get_next_item` is invoked only while no item is
DOWNLOADING and `update_item_status` is never invoked with the DOWNLOADING
status (the discipline of the single worker loop), the number of items with
status DOWNLOADING is 0 or 1. -/
theorem C2_single_download_invariant (cfg : QueueConfig) (s : ManagerState)
    (h : GuardedReach cfg s) : downloadingCount s.queue ≤ 1 := by
  induction h with
  | init => simp [initState, downloadingCount]
  | add base hR ih =>
    simp only [applyOp, add_item]
    split
    · exact ih
    · simp only
      refine le_trans (downloadingCount_sublist (saveTrim_sublist _ _)) ?_
      rw [downloadingCount_insert _ (by simp) _]
      exact ih
  | getNext now hR hzero ih =>
    simp only [applyOp, get_next_item]
    split
    · rename_i s' x' it hit
      simp only
      refine le_trans (downloadingCount_sublist (saveTrim_sublist _ _)) ?_
      have := downloadingCount_markFirstPending now s'.queue
      omega
    · exact ih
  | update item_id st err prog now hR hst ih =>
    simp only [applyOp, update_item_status]
    split
    · exact ih
    · rename_i r hr
      simp only
      refine le_trans (downloadingCount_sublist (saveTrim_sublist _ _)) ?_
      refine le_trans (downloadingCount_updateFirstById item_id _ ?_ _ r hr) ih
      intro x
      rw [applyStatusUpdate_status]
      exact hst
  | retry item_id hR ih =>
    simp only [applyOp, retry_item]
    split
    · exact ih
    · rename_i r hr
      split
      · simp only
        refine le_trans (downloadingCount_sublist (saveTrim_sublist _ _)) ?_
        rw [downloadingCount_insert _ (by simp [retryReset]) _]
        exact le_trans (downloadingCount_sublist (removeFirstById_sublist item_id _ r hr)) ih
      · exact ih
  | remove item_id hR ih =>
    simp only [applyOp, remove_item]
    split
    · exact ih
    · rename_i r hr
      simp only
      refine le_trans (downloadingCount_sublist (saveTrim_sublist _ _)) ?_
      exact le_trans (downloadingCount_sublist (removeFirstById_sublist item_id _ r hr)) ih
  | clearUser chat_id hR ih =>
    simp only [applyOp, clear_user_queue]
    refine le_trans (downloadingCount_sublist (saveTrim_sublist _ _)) ?_
    exact le_trans (downloadingCount_sublist (List.filter_sublist _)) ih
  | clearCompleted chat_id hR ih =>
    simp only [applyOp, clear_completed_items]
    split
    · split
      · exact le_trans (downloadingCount_sublist (saveTrim_sublist _ _))
          (le_trans (downloadingCount_sublist (List.filter_sublist _)) ih)
      · exact le_trans (downloadingCount_sublist (saveTrim_sublist _ _))
          (le_trans (downloadingCount_sublist (List.filter_sublist _)) ih)
    · exact le_trans (downloadingCount_sublist (saveTrim_sublist _ _))
        (le_trans (downloadingCount_sublist (List.filter_sublist _)) ih)
  | cleanup isOld hR ih =>
    simp only [applyOp, cleanup_old_items]
    split
    · exact le_trans (downloadingCount_sublist (saveTrim_sublist _ _))
        (le_trans (downloadingCount_sublist (removeEach_sublist _ _)) ih)
    · exact le_trans (downloadingCount_sublist (removeEach_sublist _ _)) ih

/-- Witness for `C2_single_download_invariant` on a concrete guarded run
(add one item, then select it). -/
theorem C2_single_download_invariant_witness :
    downloadingCount (applyOp defaultConfig (QueueOp.getNext "t1")
      (applyOp defaultConfig (QueueOp.add (sampleItem "A" 1 Priority.NORMAL "t0"))
        initState)).queue ≤ 1 := by
  exact C2_single_download_invariant defaultConfig _
    (GuardedReach.getNext "t1"
      (GuardedReach.add (sampleItem "A" 1 Priority.NORMAL "t0") GuardedReach.init)
      (by decide))

/-- Members of the queue after priority insertion: the new item or an old one. -/
theorem mem_insert_by_priority {i item : QueueItemData} :
    ∀ {q : List QueueItemData}, i ∈ insert_by_priority item q → i = item ∨ i ∈ q := by
  intro q
  induction q with
  | nil => intro h; simpa [insert_by_priority] using h
  | cons x xs ih =>
    intro h
    unfold insert_by_priority at h
    split at h
    · simp only [List.mem_cons] at h
      rcases h with h | h
      · exact Or.inl h
      · exact Or.inr (List.mem_cons.mpr h)
    · simp only [List.mem_cons] at h
      rcases h with h | h
      · exact Or.inr (by simp [h])
      · rcases ih h with h' | h'
        · exact Or.inl h'
        · exact Or.inr (List.mem_cons_of_mem x h')

/-- Members of the queue after the `get_next_item` scan: an old member, or
the newly marked item, which is DOWNLOADING. -/
theorem mem_markFirstPending {i : QueueItemData} (now : String) :
    ∀ {q : List QueueItemData}, i ∈ (markFirstPending now q).1 →
      i ∈ q ∨ i.status = QueueStatus.DOWNLOADING := by
  intro q
  induction q with
  | nil => intro h; simp [markFirstPending] at h
  | cons x xs ih =>
    intro h
    unfold markFirstPending at h
    split at h
    · simp only [List.mem_cons] at h
      rcases h with h | h
      · exact Or.inr (by simp [h])
      · exact Or.inl (List.mem_cons_of_mem x h)
    · simp only [List.mem_cons] at h
      rcases h with h | h
      · exact Or.inl (by simp [h])
      · rcases ih h with h' | h'
        · exact Or.inl (List.mem_cons_of_mem x h')
        · exact Or.inr h'

/-- Members of the queue after `updateFirstById`: an old member or the image
of an old member under the rewriting function. -/
theorem mem_updateFirstById {i : QueueItemData} (item_id : String)
    (f : QueueItemData → QueueItemData) :
    ∀ {q : List QueueItemData} {r}, updateFirstById item_id f q = some r →
      i ∈ r.1 → i ∈ q ∨ ∃ j, i = f j := by
  intro q
  induction q with
  | nil => intro r h; cases h
  | cons x xs ih =>
    intro r h hmem
    unfold updateFirstById at h
    split at h
    · cases h
      simp only [List.mem_cons] at hmem
      rcases hmem with h' | h'
      · exact Or.inr ⟨x, h'⟩
      · exact Or.inl (List.mem_cons_of_mem x h')
    · cases hrec : updateFirstById item_id f xs with
      | none => rw [hrec] at h; cases h
      | some r' =>
        rw [hrec] at h
        cases h
        simp only [List.mem_cons] at hmem
        rcases hmem with h' | h'
        · exact Or.inl (by simp [h'])
        · rcases ih hrec h' with h'' | h''
          · exact Or.inl (List.mem_cons_of_mem x h'')
          · exact Or.inr h''

/-- The status `retry_item` resets to is PENDING. -/
theorem retryReset_status (i : QueueItemData) :
    (retryReset i).status = QueueStatus.PENDING := rfl

/-- **C7 (counterexample)** — `update_item_status` stamps `completed_at` on a
transition *into* a terminal status but never clears it on a transition *out*:
moving a COMPLETED item back to PENDING leaves `completed_at` set on a
non-terminal item, so the claimed "if and only if" fails. -/
theorem C7_stale_completed_time :
    ((runOps defaultConfig
      [QueueOp.add (sampleItem "A" 1 Priority.NORMAL "t0"),
       QueueOp.update "A" QueueStatus.COMPLETED none none "t1",
       QueueOp.update "A" QueueStatus.PENDING none none "t2"] initState).queue.map
        (fun i => (i.status, i.completed_time)))
      = [(QueueStatus.PENDING, some "t1")]
    ∧ isTerminalStatus QueueStatus.PENDING = false := by
  decide

/-- **C7 (amended)** — In every state reachable by any sequence of Queue
Manager operations, every item whose status is terminal (COMPLETED, FAILED or
CANCELLED) has `completed_time` set.  (The converse direction fails: see the
counterexample — an item moved out of a terminal status by
`update_item_status` keeps its stale `completed_time`.) -/
theorem C7_terminal_has_completed_time (cfg : QueueConfig) (s : ManagerState)
    (h : Reach cfg s) :
    ∀ i ∈ s.queue, isTerminalStatus i.status = true → i.completed_time ≠ none := by
  induction h with
  | init => intro i hi; cases hi
  | step op hR ih =>
    rename_i s'
    intro i hi hterm
    cases op with
    | add base =>
      simp only [applyOp, add_item] at hi
      split at hi
      · exact ih i hi hterm
      · simp only at hi
        rcases mem_insert_by_priority ((saveTrim_sublist _ _).subset hi) with h' | h'
        · rw [h'] at hterm
          simp [isTerminalStatus] at hterm
        · exact ih i h' hterm
    | getNext now =>
      simp only [applyOp, get_next_item] at hi
      split at hi
      · simp only at hi
        rcases mem_markFirstPending now ((saveTrim_sublist _ _).subset hi) with h' | h'
        · exact ih i h' hterm
        · rw [h'] at hterm
          simp [isTerminalStatus] at hterm
      · exact ih i hi hterm
    | update item_id st err prog now =>
      simp only [applyOp, update_item_status] at hi
      split at hi
      · exact ih i hi hterm
      · rename_i r hr
        simp only at hi
        rcases mem_updateFirstById item_id _ hr ((saveTrim_sublist _ _).subset hi) with h' | ⟨j, h'⟩
        · exact ih i h' hterm
        · rw [h'] at hterm ⊢
          rw [applyStatusUpdate_status] at hterm
          rw [applyStatusUpdate_completed_time st err prog now j hterm]
          simp
    | retry item_id =>
      simp only [applyOp, retry_item] at hi
      split at hi
      · exact ih i hi hterm
      · rename_i r hr
        split at hi
        · simp only at hi
          rcases mem_insert_by_priority ((saveTrim_sublist _ _).subset hi) with h' | h'
          · rw [h'] at hterm
            rw [retryReset_status] at hterm
            simp [isTerminalStatus] at hterm
          · exact ih i ((removeFirstById_sublist item_id _ r hr).subset h') hterm
        · exact ih i hi hterm
    | remove item_id =>
      simp only [applyOp, remove_item] at hi
      split at hi
      · exact ih i hi hterm
      · rename_i r hr
        simp only at hi
        exact ih i ((removeFirstById_sublist item_id _ r hr).subset
          ((saveTrim_sublist _ _).subset hi)) hterm
    | clearUser chat_id =>
      simp only [applyOp, clear_user_queue] at hi
      exact ih i (List.mem_of_mem_filter ((saveTrim_sublist _ _).subset hi)) hterm
    | clearCompleted chat_id =>
      simp only [applyOp, clear_completed_items] at hi
      split at hi
      · split at hi
        · exact ih i (List.mem_of_mem_filter ((saveTrim_sublist _ _).subset hi)) hterm
        · exact ih i (List.mem_of_mem_filter ((saveTrim_sublist _ _).subset hi)) hterm
      · exact ih i (List.mem_of_mem_filter ((saveTrim_sublist _ _).subset hi)) hterm
    | cleanup isOld =>
      simp only [applyOp, cleanup_old_items] at hi
      split at hi
      · exact ih i ((removeEach_sublist _ _).subset ((saveTrim_sublist _ _).subset hi)) hterm
      · exact ih i ((removeEach_sublist _ _).subset hi) hterm

/-- Witness for `C7_terminal_has_completed_time` on a concrete run that
completes one item. -/
theorem C7_terminal_has_completed_time_witness :
    ({ sampleItem "A" 1 Priority.NORMAL "t0" with
        status := QueueStatus.COMPLETED, completed_time := some "t1" } :
      QueueItemData).completed_time ≠ none := by
  refine C7_terminal_has_completed_time defaultConfig
    (applyOp defaultConfig (QueueOp.update "A" QueueStatus.COMPLETED none none "t1")
      (applyOp defaultConfig (QueueOp.add (sampleItem "A" 1 Priority.NORMAL "t0")) initState))
    (Reach.step _ (Reach.step _ Reach.init)) _ (by decide) (by decide)

/-- The Bool insertion test agrees with the Prop condition of the scan. -/
theorem insertBlocked_iff (item x : QueueItemData) :
    insertBlocked item x = true ↔
      (x.status = QueueStatus.PENDING ∧ pyStrLt x.priority.value item.priority.value = true) := by
  simp [insertBlocked]

/-- The first element `dropWhile` keeps fails the predicate. -/
theorem dropWhile_first_not {α : Type} (p : α → Bool) :
    ∀ (l : List α) (y : α) (l2 : List α), l.dropWhile p = y :: l2 → p y = false := by
  intro l
  induction l with
  | nil => intro y l2 h; cases h
  | cons x xs ih =>
    intro y l2 h
    rw [List.dropWhile_cons] at h
    split at h
    · exact ih y l2 h
    · cases h
      rename_i hpx
      exact Bool.eq_false_iff.mpr hpx

/-- Exact closed form of `_insert_by_priority`: the new item is placed between
the maximal prefix of items that do *not* trigger insertion and the rest of
the queue — i.e. immediately before the first PENDING item with a smaller
priority string, or at the very end when no such item exists.  This pins the
insertion position uniquely. -/
theorem insert_by_priority_eq (item : QueueItemData) :
    ∀ q : List QueueItemData,
      insert_by_priority item q
        = q.takeWhile (fun x => !insertBlocked item x)
            ++ item :: q.dropWhile (fun x => !insertBlocked item x) := by
  intro q
  induction q with
  | nil => rfl
  | cons x xs ih =>
    unfold insert_by_priority
    split
    · rename_i hc
      have hb : insertBlocked item x = true := (insertBlocked_iff item x).mpr hc
      simp [List.takeWhile_cons, List.dropWhile_cons, hb]
    · rename_i hc
      have hb : insertBlocked item x = false :=
        Bool.eq_false_iff.mpr (fun h => hc ((insertBlocked_iff item x).mp h))
      simp [List.takeWhile_cons, List.dropWhile_cons, hb, ih]

/-- **C4 (counterexample)** — In the reachable state with items
F(normal, failed), H(high, pending), N(normal, pending), a successful
`retry_item("F")` reinserts F *before* H (the string comparator ranks "normal"
above "high") and therefore also before N, a PENDING item of F's own priority:
the retried item does not reappear at the tail of its priority class. -/
theorem C4_retry_not_at_tail :
    (retry_item defaultConfig "F" (runOps defaultConfig retryScenarioOps initState)).2 = true
    ∧ ((retry_item defaultConfig "F"
          (runOps defaultConfig retryScenarioOps initState)).1.queue.map
        (fun i => (i.id, i.status, i.priority)))
      = [("F", QueueStatus.PENDING, Priority.NORMAL),
         ("H", QueueStatus.PENDING, Priority.HIGH),
         ("N", QueueStatus.PENDING, Priority.NORMAL)]
    ∧ existsLaterSamePrioPending
        (retry_item defaultConfig "F"
          (runOps defaultConfig retryScenarioOps initState)).1.queue "F" = true := by
  decide

/-- **C4 (amended)** — `retry_item(id)` returns false and leaves the state
unchanged unless the item exists with status FAILED and
`retry_count < max_retries`; on success it returns true, sets the item to
PENDING, increments `retry_count` by exactly one, clears `error_message`,
`progress` and both timestamps, and reinserts it (remove then insert by
priority) at the uniquely determined position *immediately before the first
PENDING item with a smaller priority string* (or at the very end when none
exists): the new queue is exactly the maximal non-triggering prefix of the
remainder, then the reset item, then the rest, whose head — when present —
is PENDING with a smaller priority string.  In particular the item lands
after every equal-priority pending item preceding that boundary (they all
fail the strict test and therefore sit in the prefix), though it may precede
same-priority items beyond a lower-priority pending item (see the
counterexample). -/
theorem C4_retry_item_spec (cfg : QueueConfig) (s : ManagerState) (item_id : String) :
    (removeFirstById item_id s.queue = none → retry_item cfg item_id s = (s, false))
    ∧ (∀ r, removeFirstById item_id s.queue = some r → r.1.can_retry = false →
        retry_item cfg item_id s = (s, false))
    ∧ (∀ r : QueueItemData × List QueueItemData,
        removeFirstById item_id s.queue = some r → r.1.can_retry = true →
        (retry_item cfg item_id s).2 = true
        ∧ (r.1.can_retry = true ↔
            (r.1.status = QueueStatus.FAILED ∧ r.1.retry_count < r.1.max_retries))
        ∧ (retryReset r.1).status = QueueStatus.PENDING
        ∧ (retryReset r.1).retry_count = r.1.retry_count + 1
        ∧ (retryReset r.1).error_message = none
        ∧ (retryReset r.1).progress = 0
        ∧ (retryReset r.1).started_time = none
        ∧ (retryReset r.1).completed_time = none
        ∧ (retry_item cfg item_id s).1.queue
            = saveTrimQueue cfg
                (r.2.takeWhile (fun x => !insertBlocked (retryReset r.1) x)
                  ++ retryReset r.1
                    :: r.2.dropWhile (fun x => !insertBlocked (retryReset r.1) x))
        ∧ r.2.takeWhile (fun x => !insertBlocked (retryReset r.1) x)
            ++ r.2.dropWhile (fun x => !insertBlocked (retryReset r.1) x) = r.2
        ∧ (∀ x ∈ r.2.takeWhile (fun x => !insertBlocked (retryReset r.1) x),
            ¬ (x.status = QueueStatus.PENDING ∧
                pyStrLt x.priority.value (retryReset r.1).priority.value = true))
        ∧ (∀ (y : QueueItemData) (l2 : List QueueItemData),
            r.2.dropWhile (fun x => !insertBlocked (retryReset r.1) x) = y :: l2 →
            y.status = QueueStatus.PENDING ∧
              pyStrLt y.priority.value (retryReset r.1).priority.value = true)) := by
  refine ⟨?_, ?_, ?_⟩
  · intro h
    simp [retry_item, h]
  · intro r hr hcf
    simp [retry_item, hr, hcf]
  · intro r hr hct
    refine ⟨by simp [retry_item, hr, hct], ?_, rfl, rfl, rfl, rfl, rfl, rfl, ?_,
      List.takeWhile_append_dropWhile _ _, ?_, ?_⟩
    · simp [QueueItemData.can_retry, and_comm]
    · simp [retry_item, hr, hct, insert_by_priority_eq]
    · intro x hx hcontra
      have hpx := List.mem_takeWhile_imp hx
      have hfalse : insertBlocked (retryReset r.1) x = false := by simpa using hpx
      rw [(insertBlocked_iff (retryReset r.1) x).mpr hcontra] at hfalse
      cases hfalse
    · intro y l2 hdrop
      have hpy := dropWhile_first_not _ _ y l2 hdrop
      have htrue : insertBlocked (retryReset r.1) y = true := by simpa using hpy
      exact (insertBlocked_iff (retryReset r.1) y).mp htrue

/-- Witness for `C4_retry_item_spec`: retrying the concrete failed item
succeeds. -/
theorem C4_retry_item_spec_witness :
    (retry_item defaultConfig "Y"
      { queue := [failedItem], current_download := none }).2 = true := by
  exact ((C4_retry_item_spec defaultConfig
    { queue := [failedItem], current_download := none } "Y").2.2
      (failedItem, []) (by decide) (by decide)).1

end BotQueue
